import Mathlib

/-!
Verification development for the COPAS CRM backend (Shopify order ingestion,
Supabase record store, WhatsApp notification client).

The definitions below are a shallow embedding of the Python sources:
  * `src/api/whatsapp_service.py`  — phone normalizer and notification client
  * `src/api_backup/database.py`   — record store client (customers, orders, logs)
  * `src/api/index.py`             — HTTP handlers (ingestion, status update, resend)

Stateful store operations are modelled by explicit state passing over a `DB`
value; HTTP transport outcomes (for the store and for the messaging provider)
are oracle parameters, so that every network-dependent branch of the source is
reachable in the model.  Timestamps are a logical clock `DB.now`.
-/

namespace COPAS

/-- Python truthiness of an optional string (`if x:`): `None` and `""` are falsy. -/
def truthyStr : Option String → Bool
  | none => false
  | some s => s != ""

/-- The ASCII apostrophe character, used in provider error messages. -/
def sq : String := String.singleton (Char.ofNat 39)

/-! ## Phone normalizer — `normalize_phone` in `src/api/whatsapp_service.py`

Python:
```
cleaned = "".join(c for c in phone if c.isdigit() or c == "+")
if cleaned.startswith("+"): cleaned = cleaned[1:]
if len(cleaned) == 10 and cleaned.startswith("3"): cleaned = "57" + cleaned
return cleaned
```
Note the generator keeps every digit and every plus sign, wherever it occurs;
only a single leading plus is removed afterwards. -/

/-- The character filter of the normalizer: keep digits and plus signs. -/
def keepPhoneChar (c : Char) : Bool := c.isDigit || c == '+'

/-- Python: `"".join(c for c in phone if c.isdigit() or c == "+")`. -/
def cleanPhone (l : List Char) : List Char := l.filter keepPhoneChar

/-- Python: `if cleaned.startswith("+"): cleaned = cleaned[1:]` — drops one leading plus. -/
def dropLeadingPlus : List Char → List Char
  | [] => []
  | c :: rest => if c = '+' then rest else c :: rest

/-- Python: `len(cleaned) == 10 and cleaned.startswith("3")` — the country-code trigger. -/
def needsCountryCode (l : List Char) : Bool := l.length == 10 && l.head? == some '3'

/-- The normalizer on character lists. -/
def normalizePhoneChars (l : List Char) : List Char :=
  let cleaned := dropLeadingPlus (cleanPhone l)
  if needsCountryCode cleaned then '5' :: '7' :: cleaned else cleaned

/-- The function `normalize_phone` of `src/api/whatsapp_service.py`. -/
def normalize_phone (s : String) : String := String.mk (normalizePhoneChars s.data)

/-! ## Notification client — `send_order_confirmation` in `src/api/whatsapp_service.py` -/

/-- Provider credentials and template configuration (module-level env values
`PHONE_NUMBER_ID`, `ACCESS_TOKEN`, `TEMPLATE_NAME`, `TEMPLATE_LANGUAGE`);
`os.getenv(..., "")` makes an unset credential the empty string. -/
structure WhatsAppConfig where
  phone_number_id : String
  access_token : String
  template_name : String := "order_confirmation"
  template_language : String := "es"
  deriving DecidableEq, Repr

/-- Outcome of the one outbound HTTPS POST, as an oracle: a 2xx response with
an optional message id, a non-2xx status (with the provider error detail the
code extracts), or any other transport/parse exception. -/
inductive ProviderOutcome where
  | ok (message_id : Option String)
  | httpError (status : Nat) (detail : String)
  | exn (msg : String)
  deriving DecidableEq, Repr

/-- The dict `{"success": bool, "message_id": str | None, "error": str | None}`. -/
structure SendResult where
  success : Bool
  message_id : Option String
  error : Option String
  deriving DecidableEq, Repr

/-- The configuration-error message returned when credentials are missing. -/
def configErrorMsg : String :=
  "WhatsApp no configurado: faltan WHATSAPP_PHONE_NUMBER_ID o WHATSAPP_ACCESS_TOKEN en .env"

/-- The invalid-phone message (source interpolates the raw phone between
apostrophes). -/
def invalidPhoneMsg (phone : String) : String :=
  "Número de teléfono inválido: " ++ sq ++ phone ++ sq

/-- The function `send_order_confirmation`, returning the result dict together with the
number of outbound network calls performed (0 or 1). -/
def send_order_confirmation (cfg : WhatsAppConfig) (provider : ProviderOutcome)
    (phone customer_name order_number total currency : String) : SendResult × Nat :=
  if cfg.phone_number_id == "" || cfg.access_token == "" then
    (⟨false, none, some configErrorMsg⟩, 0)
  else
    let normalized := normalize_phone phone
    if normalized == "" || normalized.length < 10 then
      (⟨false, none, some (invalidPhoneMsg phone)⟩, 0)
    else
      match provider with
      | .ok mid => (⟨true, mid, none⟩, 1)
      | .httpError st detail =>
          (⟨false, none, some ("HTTP " ++ toString st ++ ": " ++ detail)⟩, 1)
      | .exn msg => (⟨false, none, some msg⟩, 1)

/-! ## Record store data model — rows of the three Supabase collections -/

/-- A row of the `customers` collection. -/
structure Customer where
  id : String
  name : String
  email : Option String
  phone : Option String
  created_at : Nat
  updated_at : Nat
  deriving DecidableEq, Repr

/-- A Shopify line item (`models.py: LineItem`). -/
structure LineItem where
  name : String
  quantity : Int
  price : String
  sku : Option String
  variant_title : Option String
  deriving DecidableEq, Repr

/-- A shipping address (`models.py: ShippingAddress`). -/
structure ShippingAddress where
  address1 : Option String
  address2 : Option String
  city : Option String
  province : Option String
  country : Option String
  zip : Option String
  phone : Option String
  deriving DecidableEq, Repr

/-- A row of the `orders` collection, with the fields the handlers write/read. -/
structure Order where
  id : String
  shopify_order_id : String
  order_number : String
  customer_id : Option String
  customer_name : String
  customer_email : Option String
  customer_phone : Option String
  shipping_address : Option ShippingAddress
  line_items : List LineItem
  total_price : String
  currency : String
  financial_status : Option String
  fulfillment_status : Option String
  status : String
  notes : Option String
  tags : Option String
  whatsapp_sent : Bool
  whatsapp_sent_at : Option Nat
  created_at : Nat
  updated_at : Nat
  deriving DecidableEq, Repr

/-- A row of the `whatsapp_logs` collection. -/
structure WhatsAppLog where
  order_id : String
  success : Bool
  message_id : Option String
  error_message : Option String
  sent_at : Nat
  deriving DecidableEq, Repr

/-- The record store state: the three collections, a fresh-id counter for
store-assigned row ids, and a logical clock standing for `_now()`. -/
structure DB where
  customers : List Customer
  orders : List Order
  whatsapp_logs : List WhatsAppLog
  nextId : Nat
  now : Nat
  deriving DecidableEq, Repr

/-- Store-assigned id of a freshly inserted customer row. -/
def freshCustomerId (db : DB) : String := "cust-" ++ toString db.nextId

/-- Store-assigned id of a freshly inserted order row (always a nonempty
string, as a Supabase row id is). -/
def freshOrderId (db : DB) : String := "ord-" ++ toString db.nextId

/-! ## Record store client — `src/api_backup/database.py` -/

/-- The patch `upsert_customer` sends for an existing row: always bumps
`updated_at`; includes `name` / `phone` only when truthy. -/
def customerPatch (db : DB) (name : String) (phone : Option String) (c : Customer) : Customer :=
  { c with
    updated_at := db.now,
    name := if name != "" then name else c.name,
    phone := if truthyStr phone then phone else c.phone }

/-- The insert branch of `upsert_customer`: body has `name`, timestamps, and
`email` / `phone` only when truthy. -/
def insertCustomer (db : DB) (name : String) (email phone : Option String) : Customer × DB :=
  let c : Customer :=
    { id := freshCustomerId db,
      name := name,
      email := if truthyStr email then email else none,
      phone := if truthyStr phone then phone else none,
      created_at := db.now,
      updated_at := db.now }
  (c, { db with customers := db.customers ++ [c], nextId := db.nextId + 1 })

/-- The function `upsert_customer`: with a truthy email, query by email; if found, patch
name/phone/updated-timestamp (the PATCH hits every row matching the email
filter) and return the merged record; otherwise insert. -/
def upsert_customer (db : DB) (name : String) (email phone : Option String) : Customer × DB :=
  if truthyStr email then
    match db.customers.find? (fun c => c.email == email) with
    | some existing =>
        (customerPatch db name phone existing,
         { db with customers :=
             db.customers.map (fun c =>
               if c.email == email then customerPatch db name phone c else c) })
    | none => insertCustomer db name email phone
  else insertCustomer db name email phone

/-- The order dict built by the ingestion handler and passed to `upsert_order`. -/
structure OrderData where
  shopify_order_id : String
  order_number : String
  customer_id : Option String
  customer_name : String
  customer_email : Option String
  customer_phone : Option String
  shipping_address : Option ShippingAddress
  line_items : List LineItem
  total_price : String
  currency : String
  financial_status : Option String
  fulfillment_status : Option String
  status : String
  notes : Option String
  tags : Option String
  whatsapp_sent : Bool
  deriving DecidableEq, Repr

/-- The row inserted by `upsert_order`, with `created_at` / `updated_at`
stamped by the client and the id assigned by the store. -/
def insertedOrder (db : DB) (od : OrderData) : Order :=
  { id := freshOrderId db,
    shopify_order_id := od.shopify_order_id,
    order_number := od.order_number,
    customer_id := od.customer_id,
    customer_name := od.customer_name,
    customer_email := od.customer_email,
    customer_phone := od.customer_phone,
    shipping_address := od.shipping_address,
    line_items := od.line_items,
    total_price := od.total_price,
    currency := od.currency,
    financial_status := od.financial_status,
    fulfillment_status := od.fulfillment_status,
    status := od.status,
    notes := od.notes,
    tags := od.tags,
    whatsapp_sent := od.whatsapp_sent,
    whatsapp_sent_at := none,
    created_at := db.now,
    updated_at := db.now }

/-- The function `upsert_order`: query by `shopify_order_id`; if a row exists return it
paired with `False` and issue no write (the source GET selects only the
`id, shopify_order_id` columns of the row; we return the stored row, of which
those are fields — the callers read only `id`); otherwise insert with
timestamps and return the new row paired with `True`. -/
def upsert_order (db : DB) (od : OrderData) : (Order × Bool) × DB :=
  match db.orders.find? (fun o => o.shopify_order_id == od.shopify_order_id) with
  | some existing => ((existing, false), db)
  | none =>
      let o := insertedOrder db od
      ((o, true), { db with orders := db.orders ++ [o], nextId := db.nextId + 1 })

/-- The patch `update_order_status` sends: `status` and `updated_at` always,
`notes` only when not `None`. -/
def statusPatch (db : DB) (status : String) (notes : Option String) (o : Order) : Order :=
  let o' := { o with status := status, updated_at := db.now }
  match notes with
  | some n => { o' with notes := some n }
  | none => o'

/-- The function `update_order_status`: PATCH every row matching `id=eq.order_id`, then
return the first row of the representation (`r.json()[0] if r.json() else {}`
— `none` models the falsy empty dict). -/
def update_order_status (db : DB) (order_id status : String) (notes : Option String) :
    Option Order × DB :=
  let db' := { db with
    orders := db.orders.map (fun o =>
      if o.id == order_id then statusPatch db status notes o else o) }
  (db'.orders.find? (fun o => o.id == order_id), db')

/-- The patch `mark_whatsapp_sent` sends to the order row: `whatsapp_sent`
takes the given success value, `updated_at` is bumped, and `whatsapp_sent_at`
is stamped only when success is true. -/
def whatsappPatch (db : DB) (success : Bool) (o : Order) : Order :=
  let o' := { o with whatsapp_sent := success, updated_at := db.now }
  if success then { o' with whatsapp_sent_at := some db.now } else o'

/-- The function `mark_whatsapp_sent`: patch the order row, then POST one log row — both
writes happen regardless of the success value. -/
def mark_whatsapp_sent (db : DB) (order_id : String) (success : Bool)
    (message_id error : Option String) : DB :=
  let db' : DB := { db with
    orders := db.orders.map (fun o =>
      if o.id == order_id then whatsappPatch db success o else o) }
  let logRow : WhatsAppLog :=
    { order_id := order_id, success := success, message_id := message_id,
      error_message := error, sent_at := db.now }
  { db' with whatsapp_logs := db'.whatsapp_logs ++ [logRow] }

/-! ## Store reads over raw transport — the failure-degradation paths

`get_orders` and `get_order_by_id` consume raw HTTP responses from the store;
to settle how transport failures propagate we model a response as a status
code plus a JSON body (an array of rows, or a non-empty JSON object such as a
PostgREST error payload). -/

/-- A JSON response body from the store. -/
inductive StoreBody (α : Type) where
  | arr (rows : List α)
  | errObj (msg : String)
  deriving DecidableEq, Repr

/-- An HTTP response from the store. -/
structure StoreResp (α : Type) where
  status : Nat
  body : StoreBody α
  deriving DecidableEq, Repr

/-- Python truthiness of a parsed JSON body: an empty array is falsy; a
non-empty array or a non-empty object is truthy. -/
def StoreBody.truthy {α : Type} : StoreBody α → Bool
  | .arr [] => false
  | .arr (_ :: _) => true
  | .errObj _ => true

/-- Python `body[0]`: head of an array; an exception on an empty array
(IndexError) or on an object (KeyError, since `0` is not a key). -/
def StoreBody.index0 {α : Type} : StoreBody α → Except String α
  | .arr (x :: _) => .ok x
  | .arr [] => .error "IndexError: list index out of range"
  | .errObj _ => .error "KeyError: 0"

/-- The function `get_orders` (response-handling part): `r.json() if r.status_code == 200
else []`.  The filter/pagination arguments shape the request, not the
response handling, and are carried for fidelity only. -/
def get_orders (status : Option String) (whatsapp_sent : Option Bool)
    (limit offset : Nat) (r : StoreResp Order) : StoreBody Order :=
  if r.status == 200 then r.body else .arr []

/-- The function `get_order_by_id` over the two raw responses (order fetch, then log
fetch).  The first GET has no status check: `if not r.json(): return None`
falls through on a truthy error object and `r.json()[0]` then raises, which
`Except.error` records.  The log fetch is guarded: non-200 degrades to `[]`. -/
def get_order_by_id (r : StoreResp Order) (r2 : StoreResp WhatsAppLog) :
    Except String (Option (Order × StoreBody WhatsAppLog)) :=
  if r.body.truthy = false then .ok none
  else
    match r.body.index0 with
    | .error e => .error e
    | .ok o => .ok (some (o, if r2.status == 200 then r2.body else .arr []))

/-! ## Inbound payload — `models.py: ShopifyOrderPayload` -/

/-- Schema `models.py: CustomerData`. -/
structure CustomerData where
  first_name : Option String
  last_name : Option String
  email : Option String
  phone : Option String
  deriving DecidableEq, Repr

/-- Schema `models.py: ShopifyOrderPayload` (the fields the handler reads). -/
structure ShopifyOrderPayload where
  shopify_order_id : String
  order_number : String
  customer : Option CustomerData
  shipping_address : Option ShippingAddress
  line_items : List LineItem
  total_price : String
  currency : String := "COP"
  financial_status : Option String
  fulfillment_status : Option String
  note : Option String
  tags : Option String
  deriving DecidableEq, Repr

/-- Python `x or ""` on an optional string: `None` and `""` both give `""`,
so this is `Option.getD "" `. -/
def orEmpty (o : Option String) : String := o.getD ""

/-- Python: `f"{first_name} {last_name}".strip() or "Cliente"` over the optional
customer block (`getattr(customer, ..., None) or ""`). -/
def derive_customer_name (customer : Option CustomerData) : String :=
  let first_name := orEmpty (customer.bind (fun c => c.first_name))
  let last_name := orEmpty (customer.bind (fun c => c.last_name))
  let s := (first_name ++ " " ++ last_name).trim
  if s != "" then s else "Cliente"

/-- Phone resolution: `customer.phone`, and when that is falsy and a shipping
block is present, replace it by `shipping.phone` (even if that is `None`). -/
def derive_customer_phone (payload : ShopifyOrderPayload) : Option String :=
  let customer_phone := payload.customer.bind (fun c => c.phone)
  if !(truthyStr customer_phone) && payload.shipping_address.isSome then
    payload.shipping_address.bind (fun s => s.phone)
  else customer_phone

/-! ## HTTP handlers — `src/api/index.py`

A handler result is either a JSON value or an `HTTPException(status, detail)`.
Handlers that can reach the notification client also report the number of
outbound provider network calls they caused. -/

/-- A handler outcome: a response value or an `HTTPException`. -/
inductive HttpResult (α : Type) where
  | ok (value : α)
  | err (status : Nat) (detail : String)
  deriving DecidableEq, Repr

/-- The fixed status enum of the `PATCH /orders/{id}/status` handler. -/
def valid_statuses : List String := ["nuevo", "en_proceso", "enviado", "completado", "cancelado"]

/-- The 400 detail: `f"Estado inválido. Usa: {', '.join(valid_statuses)}"`. -/
def invalidStatusDetail : String :=
  "Estado inválido. Usa: " ++ String.intercalate ", " valid_statuses

/-- The handler `update_status` (`PATCH /orders/{id}/status`): 400 before any store call
when the status is outside the enum; otherwise run `update_order_status` and
404 on a falsy (empty) result. -/
def update_status (db : DB) (order_id : String) (status : String) (notes : Option String) :
    HttpResult Order × DB :=
  if !(valid_statuses.contains status) then
    (.err 400 invalidStatusDetail, db)
  else
    let r := update_order_status db order_id status notes
    match r.1 with
    | none => (.err 404 "Pedido no encontrado", r.2)
    | some updated => (.ok updated, r.2)

/-- The handler `resend_whatsapp` (`POST /orders/{id}/resend-whatsapp`): 404 if the order
is unknown, 400 if it has no truthy phone, otherwise send unconditionally,
record via `mark_whatsapp_sent` win or lose, and map a failed send to a 502.
Returns (result, store state, provider network calls). -/
def resend_whatsapp (cfg : WhatsAppConfig) (provider : ProviderOutcome) (db : DB)
    (order_id : String) : HttpResult String × DB × Nat :=
  match db.orders.find? (fun o => o.id == order_id) with
  | none => (.err 404 "Pedido no encontrado", db, 0)
  | some order =>
    if !(truthyStr order.customer_phone) then
      (.err 400 "Este pedido no tiene teléfono registrado", db, 0)
    else
      let sr := send_order_confirmation cfg provider (orEmpty order.customer_phone)
        order.customer_name order.order_number order.total_price order.currency
      let db' := mark_whatsapp_sent db order_id sr.1.success sr.1.message_id sr.1.error
      if sr.1.success then
        (.ok "WhatsApp reenviado correctamente", db', sr.2)
      else
        (.err 502 ("Error al enviar WhatsApp: " ++ orEmpty sr.1.error), db', sr.2)

/-- The JSON response of the ingestion webhook (both return shapes; fields
absent from a shape are `none`). -/
structure IngestResponse where
  success : Bool
  order_id : Option String
  order_number : Option String
  message : Option String
  whatsapp_sent : Bool
  whatsapp_error : Option String
  deriving DecidableEq, Repr

/-- The order dict the ingestion handler builds (step 3 of the webhook flow):
workflow status fixed to `"nuevo"`, `whatsapp_sent` false, customer fields
denormalized from the derived values. -/
def ingest_order_data (payload : ShopifyOrderPayload) (customer_id : Option String) : OrderData :=
  { shopify_order_id := payload.shopify_order_id,
    order_number := payload.order_number,
    customer_id := customer_id,
    customer_name := derive_customer_name payload.customer,
    customer_email := payload.customer.bind (fun c => c.email),
    customer_phone := derive_customer_phone payload,
    shipping_address := payload.shipping_address,
    line_items := payload.line_items,
    total_price := payload.total_price,
    currency := payload.currency,
    financial_status := payload.financial_status,
    fulfillment_status := payload.fulfillment_status,
    status := "nuevo",
    notes := payload.note,
    tags := payload.tags,
    whatsapp_sent := false }

/-- The handler `receive_shopify_order` (`POST /webhook/shopify`): derive customer data,
upsert customer, upsert order idempotently; on a duplicate return at once with
`whatsapp_sent = False` and the already-existed message; on a new order notify
when a truthy phone exists (else synthesize the `"Sin teléfono"` failure),
record the outcome, and respond.  Returns
(response, store state, provider network calls). -/
def receive_shopify_order (cfg : WhatsAppConfig) (provider : ProviderOutcome) (db : DB)
    (payload : ShopifyOrderPayload) : IngestResponse × DB × Nat :=
  let customer_name := derive_customer_name payload.customer
  let customer_email := payload.customer.bind (fun c => c.email)
  let customer_phone := derive_customer_phone payload
  let up := upsert_customer db customer_name customer_email customer_phone
  let uo := upsert_order up.2 (ingest_order_data payload (some up.1.id))
  let order_id := uo.1.1.id
  if !uo.1.2 then
    ({ success := true, order_id := some order_id, order_number := none,
       message := some "Pedido ya existente, sin cambios",
       whatsapp_sent := false, whatsapp_error := none }, uo.2, 0)
  else
    let wr :=
      if truthyStr customer_phone then
        send_order_confirmation cfg provider (orEmpty customer_phone) customer_name
          payload.order_number payload.total_price payload.currency
      else (⟨false, none, some "Sin teléfono"⟩, 0)
    let db3 :=
      if order_id != "" then
        mark_whatsapp_sent uo.2 order_id wr.1.success wr.1.message_id wr.1.error
      else uo.2
    ({ success := true, order_id := some order_id,
       order_number := some payload.order_number, message := none,
       whatsapp_sent := wr.1.success,
       whatsapp_error := if wr.1.success then none else wr.1.error }, db3, wr.2)

/-! ## Concrete fixtures for witnesses and counterexamples -/

/-- A configuration with a missing access token (`os.getenv` default `""`). -/
def cfgNoToken : WhatsAppConfig := { phone_number_id := "pn-1", access_token := "" }

/-- A fully configured provider client. -/
def cfgOK : WhatsAppConfig := { phone_number_id := "pn-1", access_token := "tok-1" }

/-- A stored order with a phone on file. -/
def orderWithPhone : Order :=
  { id := "ord-1", shopify_order_id := "s1", order_number := "1001",
    customer_id := none, customer_name := "Ana", customer_email := none,
    customer_phone := some "3001234567", shipping_address := none, line_items := [],
    total_price := "50000", currency := "COP", financial_status := none,
    fulfillment_status := none, status := "nuevo", notes := none, tags := none,
    whatsapp_sent := false, whatsapp_sent_at := none, created_at := 0, updated_at := 0 }

/-- A stored order without a phone on file. -/
def orderNoPhone : Order :=
  { orderWithPhone with id := "ord-2", shopify_order_id := "s2", customer_phone := none }

/-- A store state holding the two orders above. -/
def dbTwo : DB :=
  { customers := [], orders := [orderWithPhone, orderNoPhone], whatsapp_logs := [],
    nextId := 5, now := 9 }

/-- An empty store state. -/
def dbEmpty : DB := { customers := [], orders := [], whatsapp_logs := [], nextId := 0, now := 3 }

/-- Order data whose external order id collides with `orderWithPhone`. -/
def odDup : OrderData :=
  { shopify_order_id := "s1", order_number := "1001-b", customer_id := none,
    customer_name := "Bea", customer_email := none, customer_phone := some "3009999999",
    shipping_address := none, line_items := [], total_price := "70000", currency := "COP",
    financial_status := none, fulfillment_status := none, status := "nuevo",
    notes := none, tags := none, whatsapp_sent := false }

/-- A webhook payload whose external order id collides with `orderWithPhone`. -/
def payDup : ShopifyOrderPayload :=
  { shopify_order_id := "s1", order_number := "1001", customer := none,
    shipping_address := none, line_items := [], total_price := "50000",
    currency := "COP", financial_status := none, fulfillment_status := none,
    note := none, tags := none }

/-- A fresh webhook payload with no phone anywhere. -/
def payNoPhone : ShopifyOrderPayload := { payDup with shopify_order_id := "s9" }

/-- A store response carrying an error-object body with a non-2xx status. -/
def errOrderResp : StoreResp Order := { status := 500, body := .errObj "internal error" }

/-- A failing log-fetch response. -/
def errLogResp : StoreResp WhatsAppLog := { status := 500, body := .errObj "internal error" }

/-! # Theorems

Helper lemmas first, then one theorem (plus witness or counterexample) per
claim C1–C10. -/

/-- A `map` that fixes every member of a list is the identity on it. -/
theorem map_id_of_mem {α : Type} {f : α → α} : ∀ {l : List α}, (∀ x ∈ l, f x = x) → l.map f = l
  | [], _ => rfl
  | x :: xs, h => by
    rw [List.map_cons, h x (List.mem_cons_self x xs),
      map_id_of_mem (fun y hy => h y (List.mem_cons_of_mem x hy))]

/-- Members of `dropLeadingPlus l` are members of `l`. -/
theorem mem_of_mem_dropLeadingPlus {c : Char} : ∀ {l : List Char}, c ∈ dropLeadingPlus l → c ∈ l
  | [], h => by simpa [dropLeadingPlus] using h
  | a :: t, h => by
    by_cases ha : a = '+'
    · subst ha
      simp [dropLeadingPlus] at h
      exact List.mem_cons_of_mem _ h
    · simpa [dropLeadingPlus, ha] using h

/-- The function `dropLeadingPlus` is the identity when the head is not a plus. -/
theorem dropLeadingPlus_of_head_ne {l : List Char} (h : l.head? ≠ some '+') :
    dropLeadingPlus l = l := by
  cases l with
  | nil => rfl
  | cons a t =>
    have ha : a ≠ '+' := by
      intro hcon
      exact h (by simp [hcon])
    simp [dropLeadingPlus, ha]

/-- Every character of a normalizer output is a digit or a plus. -/
theorem keep_of_mem_normalizePhoneChars {c : Char} {l : List Char}
    (h : c ∈ normalizePhoneChars l) : keepPhoneChar c = true := by
  have hsub : c ∈ dropLeadingPlus (cleanPhone l) → keepPhoneChar c = true := fun hc =>
    List.of_mem_filter (mem_of_mem_dropLeadingPlus hc)
  unfold normalizePhoneChars at h
  by_cases hn : needsCountryCode (dropLeadingPlus (cleanPhone l))
  · rw [if_pos hn] at h
    rcases List.mem_cons.mp h with h5 | h'
    · subst h5; decide
    rcases List.mem_cons.mp h' with h7 | hd
    · subst h7; decide
    · exact hsub hd
  · rw [if_neg hn] at h
    exact hsub h

/-- No normalizer output satisfies the country-code trigger: the prefixed
branch has length 12, the other branch failed the trigger by construction. -/
theorem needsCountryCode_normalizePhoneChars (l : List Char) :
    needsCountryCode (normalizePhoneChars l) = false := by
  unfold normalizePhoneChars
  by_cases hn : needsCountryCode (dropLeadingPlus (cleanPhone l))
  · rw [if_pos hn]
    have hlen : (dropLeadingPlus (cleanPhone l)).length = 10 := by
      unfold needsCountryCode at hn
      simp at hn
      exact hn.1
    unfold needsCountryCode
    simp [hlen]
  · rw [if_neg hn]
    exact Bool.of_not_eq_true hn

/-- With at most one plus in the input, the normalizer output does not start
with a plus. -/
theorem head_normalizePhoneChars_ne_plus {l : List Char} (h : l.count '+' ≤ 1) :
    (normalizePhoneChars l).head? ≠ some '+' := by
  have hc : (cleanPhone l).count '+' ≤ 1 :=
    le_trans ((List.filter_sublist l).count_le '+') h
  have hd : (dropLeadingPlus (cleanPhone l)).head? ≠ some '+' := by
    cases hcp : cleanPhone l with
    | nil => simp [dropLeadingPlus]
    | cons a t =>
      by_cases ha : a = '+'
      · subst ha
        rw [hcp] at hc
        have ht : t.count '+' = 0 := by
          have h2 := List.count_cons_self '+' t
          omega
        have hnot : '+' ∉ t := List.count_eq_zero.mp ht
        simp only [dropLeadingPlus, if_pos rfl]
        intro hcon
        exact hnot (List.mem_of_mem_head? hcon)
      · simp [dropLeadingPlus, ha]
  unfold normalizePhoneChars
  by_cases hn : needsCountryCode (dropLeadingPlus (cleanPhone l))
  · rw [if_pos hn]
    simp
  · rw [if_neg hn]
    exact hd

/-- Claim C9, counterexample: the claim asserts every output is digit-only
with no leading zero and no leading plus; on input `"0+1"` the code keeps the
interior plus (the filter keeps every plus, not only a leading one) and the
leading zero, so the output `"0+1"` is neither digit-only nor zero-free. -/
theorem normalize_phone_c9_counterexample :
    normalize_phone "0+1" = "0+1" ∧
    (normalize_phone "0+1").data.all Char.isDigit = false ∧
    (normalize_phone "0+1").data.head? = some '0' := by
  refine ⟨by decide, by decide, by decide⟩

/-- Claim C9 (amended): the normalizer keeps every digit and every plus
character, drops one leading plus, and prepends the default country code
exactly when the remaining string has exactly 10 characters and starts with
`'3'`; whenever the cleaned input has no plus beyond a leading one, the output
is a digit-only string with no leading plus (a leading zero may remain). -/
theorem normalize_phone_spec (s : String)
    (h : (dropLeadingPlus (cleanPhone s.data)).all Char.isDigit = true) :
    (normalize_phone s).data.all Char.isDigit = true ∧
    (normalize_phone s).data.head? ≠ some '+' ∧
    (normalize_phone s).data =
      (if needsCountryCode (dropLeadingPlus (cleanPhone s.data)) then
        '5' :: '7' :: dropLeadingPlus (cleanPhone s.data)
      else dropLeadingPlus (cleanPhone s.data)) := by
  have hdata : (normalize_phone s).data = normalizePhoneChars s.data := rfl
  have hall : (normalizePhoneChars s.data).all Char.isDigit = true := by
    unfold normalizePhoneChars
    by_cases hn : needsCountryCode (dropLeadingPlus (cleanPhone s.data))
    · rw [if_pos hn]
      simpa using h
    · rw [if_neg hn]
      exact h
  refine ⟨by rw [hdata]; exact hall, ?_, by rw [hdata]; rfl⟩
  rw [hdata]
  intro hcon
  have hmem : '+' ∈ normalizePhoneChars s.data := List.mem_of_mem_head? hcon
  have := List.all_eq_true.mp hall '+' hmem
  exact absurd this (by decide)

/-- Claim C9 witness. -/
theorem normalize_phone_spec_witness :
    (normalize_phone "+57 300-123-4567").data.all Char.isDigit = true ∧
    (normalize_phone "+57 300-123-4567").data.head? ≠ some '+' := by
  have h := normalize_phone_spec "+57 300-123-4567" (by decide)
  exact ⟨h.1, h.2.1⟩

/-- Claim C10, counterexample: the normalizer is not idempotent — on input
`"++123"` the first pass only drops one of the two leading pluses, so a second
pass drops another and produces a different string. -/
theorem normalize_phone_c10_counterexample :
    normalize_phone "++123" = "+123" ∧
    normalize_phone (normalize_phone "++123") ≠ normalize_phone "++123" := by
  refine ⟨by decide, by decide⟩

/-- Claim C10 (amended): no output of the normalizer satisfies the
country-code trigger (so the prefix is never applied twice), and on every
input containing at most one plus character the normalizer is idempotent. -/
theorem normalize_phone_idempotent (s : String) :
    needsCountryCode (normalizePhoneChars s.data) = false ∧
    (s.data.count '+' ≤ 1 →
      normalize_phone (normalize_phone s) = normalize_phone s) := by
  refine ⟨needsCountryCode_normalizePhoneChars s.data, fun hcount => ?_⟩
  have hdata : (normalize_phone s).data = normalizePhoneChars s.data := rfl
  show String.mk (normalizePhoneChars (normalize_phone s).data) = normalize_phone s
  rw [hdata]
  have hclean : cleanPhone (normalizePhoneChars s.data) = normalizePhoneChars s.data :=
    List.filter_eq_self.mpr fun c hc => keep_of_mem_normalizePhoneChars hc
  have hdrop : dropLeadingPlus (normalizePhoneChars s.data) = normalizePhoneChars s.data :=
    dropLeadingPlus_of_head_ne (head_normalizePhoneChars_ne_plus hcount)
  have hdef : ∀ l : List Char, normalizePhoneChars l =
      (if needsCountryCode (dropLeadingPlus (cleanPhone l)) then
        '5' :: '7' :: dropLeadingPlus (cleanPhone l)
      else dropLeadingPlus (cleanPhone l)) := fun _ => rfl
  have : normalizePhoneChars (normalizePhoneChars s.data) = normalizePhoneChars s.data := by
    rw [hdef (normalizePhoneChars s.data), hclean, hdrop,
      needsCountryCode_normalizePhoneChars, if_neg (by simp)]
  rw [this]
  rfl

/-- Claim C10 witness. -/
theorem normalize_phone_idempotent_witness :
    normalize_phone (normalize_phone "3001234567") = normalize_phone "3001234567" := by
  exact (normalize_phone_idempotent "3001234567").2 (by decide)

/-- Full case analysis of `send_order_confirmation` (shared helper): the
guard outcomes determine the result and the number of network calls. -/
theorem send_order_confirmation_cases (cfg : WhatsAppConfig) (provider : ProviderOutcome)
    (phone customer_name order_number total currency : String) :
    if cfg.phone_number_id == "" || cfg.access_token == "" then
      send_order_confirmation cfg provider phone customer_name order_number total currency
        = (⟨false, none, some configErrorMsg⟩, 0)
    else if (normalize_phone phone).length < 10 then
      send_order_confirmation cfg provider phone customer_name order_number total currency
        = (⟨false, none, some (invalidPhoneMsg phone)⟩, 0)
    else
      (send_order_confirmation cfg provider phone customer_name order_number total currency).2
        = 1 := by
  by_cases h1 : (cfg.phone_number_id == "" || cfg.access_token == "") = true
  · rw [if_pos h1]
    unfold send_order_confirmation
    rw [if_pos h1]
  · rw [if_neg h1]
    by_cases h2 : (normalize_phone phone).length < 10
    · rw [if_pos h2]
      unfold send_order_confirmation
      rw [if_neg h1, if_pos (by simp [h2])]
    · rw [if_neg h2]
      have hne : (normalize_phone phone == "") = false := by
        cases hq : normalize_phone phone == ""
        · rfl
        · exact absurd (by rw [eq_of_beq hq]; exact Nat.zero_lt_succ 9) h2
      unfold send_order_confirmation
      rw [if_neg h1, if_neg (by simp [hne, h2])]
      cases provider <;> rfl

/-- Claim C4: every invocation of the notification client makes exactly one
outbound network call, except that it makes zero calls and returns the
configuration-error failure when credentials are absent, and zero calls and
the invalid-phone failure when the normalized phone is shorter than 10. -/
theorem send_order_confirmation_call_count (cfg : WhatsAppConfig) (provider : ProviderOutcome)
    (phone customer_name order_number total currency : String) :
    if cfg.phone_number_id == "" || cfg.access_token == "" then
      send_order_confirmation cfg provider phone customer_name order_number total currency
        = (⟨false, none, some configErrorMsg⟩, 0)
    else if (normalize_phone phone).length < 10 then
      send_order_confirmation cfg provider phone customer_name order_number total currency
        = (⟨false, none, some (invalidPhoneMsg phone)⟩, 0)
    else
      (send_order_confirmation cfg provider phone customer_name order_number total currency).2
        = 1 :=
  send_order_confirmation_cases cfg provider phone customer_name order_number total currency

/-- Claim C5: when the external order id matches a stored row, `upsert_order`
returns that row paired with `false` and leaves the store untouched — no field
of any stored order changes even if the supplied data differs; when no row
matches, it inserts a row stamped with created/updated timestamps and returns
it paired with `true`. -/
theorem upsert_order_spec (db : DB) (od : OrderData) :
    (∀ o, db.orders.find? (fun x => x.shopify_order_id == od.shopify_order_id) = some o →
      upsert_order db od = ((o, false), db)) ∧
    (db.orders.find? (fun x => x.shopify_order_id == od.shopify_order_id) = none →
      upsert_order db od =
        ((insertedOrder db od, true),
          { db with orders := db.orders ++ [insertedOrder db od], nextId := db.nextId + 1 }) ∧
      (insertedOrder db od).created_at = db.now ∧
      (insertedOrder db od).updated_at = db.now) := by
  constructor
  · intro o h
    unfold upsert_order
    rw [h]
  · intro h
    unfold upsert_order
    rw [h]
    exact ⟨rfl, rfl, rfl⟩

/-- Claim C5 witness: a duplicate upsert returns the stored row and changes
nothing; a fresh upsert inserts exactly the stamped row. -/
theorem upsert_order_spec_witness :
    upsert_order dbTwo odDup = ((orderWithPhone, false), dbTwo) ∧
    upsert_order dbEmpty odDup =
      ((insertedOrder dbEmpty odDup, true),
        { dbEmpty with
            orders := dbEmpty.orders ++ [insertedOrder dbEmpty odDup],
            nextId := dbEmpty.nextId + 1 }) := by
  refine ⟨(upsert_order_spec dbTwo odDup).1 orderWithPhone (by decide), ?_⟩
  exact ((upsert_order_spec dbEmpty odDup).2 (by decide)).1

/-- Claim C6: `mark_whatsapp_sent` always performs both writes, whatever the
success value: exactly one log row (with the given order id, success flag,
message id, error text and the sent timestamp) is appended, and every stored
order with the given id is patched so its notification-sent flag equals the
success value, its sent-timestamp is stamped exactly when success is true, and
its other payload fields are untouched. -/
theorem mark_whatsapp_sent_spec (db : DB) (order_id : String) (success : Bool)
    (message_id error : Option String) (o : Order) (ho : o ∈ db.orders)
    (hid : o.id = order_id) :
    (mark_whatsapp_sent db order_id success message_id error).whatsapp_logs =
      db.whatsapp_logs ++ [⟨order_id, success, message_id, error, db.now⟩] ∧
    ∃ o' ∈ (mark_whatsapp_sent db order_id success message_id error).orders,
      o'.id = o.id ∧ o'.whatsapp_sent = success ∧
      o'.whatsapp_sent_at = (if success then some db.now else o.whatsapp_sent_at) ∧
      o'.updated_at = db.now ∧ o'.status = o.status ∧
      o'.customer_phone = o.customer_phone ∧ o'.shopify_order_id = o.shopify_order_id := by
  refine ⟨rfl, whatsappPatch db success o, ?_, ?_⟩
  · show whatsappPatch db success o ∈ db.orders.map (fun x =>
      if x.id == order_id then whatsappPatch db success x else x)
    have : (fun x => if x.id == order_id then whatsappPatch db success x else x) o =
        whatsappPatch db success o := by
      simp [hid]
    rw [← this]
    exact List.mem_map_of_mem _ ho
  · unfold whatsappPatch
    cases success <;> simp

/-- Claim C6 witness. -/
theorem mark_whatsapp_sent_spec_witness :
    (mark_whatsapp_sent dbTwo "ord-1" true (some "wamid.X") none).whatsapp_logs =
      dbTwo.whatsapp_logs ++ [⟨"ord-1", true, some "wamid.X", none, dbTwo.now⟩] ∧
    ∃ o' ∈ (mark_whatsapp_sent dbTwo "ord-1" true (some "wamid.X") none).orders,
      o'.id = orderWithPhone.id ∧ o'.whatsapp_sent = true ∧
      o'.whatsapp_sent_at = (if true then some dbTwo.now else orderWithPhone.whatsapp_sent_at) ∧
      o'.updated_at = dbTwo.now ∧ o'.status = orderWithPhone.status ∧
      o'.customer_phone = orderWithPhone.customer_phone ∧
      o'.shopify_order_id = orderWithPhone.shopify_order_id := by
  exact mark_whatsapp_sent_spec dbTwo "ord-1" true (some "wamid.X") none orderWithPhone
    (by decide) (by decide)

/-- Claim C7: a status value outside the fixed enum yields a 400 before any
store write (the state is returned unchanged, so the stored status is
unchanged); an in-enum status on an unknown order id yields a 404, also with
the state unchanged. -/
theorem update_status_spec (db : DB) (order_id status : String) (notes : Option String) :
    (status ∉ valid_statuses →
      update_status db order_id status notes = (.err 400 invalidStatusDetail, db)) ∧
    (status ∈ valid_statuses →
      db.orders.find? (fun o => o.id == order_id) = none →
      update_status db order_id status notes = (.err 404 "Pedido no encontrado", db)) := by
  constructor
  · intro h
    unfold update_status
    rw [if_pos (by simpa using h)]
  · intro hmem hfind
    have hno : ∀ o ∈ db.orders, (o.id == order_id) = false := by
      intro o hmo
      have := List.find?_eq_none.mp hfind o hmo
      simpa using this
    have hmap : db.orders.map (fun o =>
        if o.id == order_id then statusPatch db status notes o else o) = db.orders :=
      map_id_of_mem (fun o hmo => by rw [hno o hmo]; rfl)
    unfold update_status
    rw [if_neg (by simpa using hmem)]
    unfold update_order_status
    simp only [hmap, hfind]

/-- Claim C7 witness: an out-of-enum status is rejected with 400, and an
in-enum status on an unknown id gives 404; neither touches the store. -/
theorem update_status_spec_witness :
    update_status dbTwo "ord-1" "shipped" none = (.err 400 invalidStatusDetail, dbTwo) ∧
    update_status dbTwo "ord-404" "enviado" none = (.err 404 "Pedido no encontrado", dbTwo) := by
  constructor
  · exact (update_status_spec dbTwo "ord-1" "shipped" none).1 (by decide)
  · exact (update_status_spec dbTwo "ord-404" "enviado" none).2 (by decide) (by decide)

/-- Claim C8, counterexample: the claim asserts every store read failure
degrades to an empty result rather than raising; but the order fetch of the
detail path has no status check, so a 500 response with a JSON error object
raises (the code indexes the object with `[0]`) instead of degrading. -/
theorem get_order_by_id_c8_counterexample :
    errOrderResp.status = 500 ∧
    get_order_by_id errOrderResp errLogResp = .error "KeyError: 0" := by
  exact ⟨rfl, rfl⟩

/-- Claim C8 (amended): listing orders degrades to an empty list on any
non-200 store response, and the notification-log fetch of the detail path
degrades to an empty log list on a non-200 response; the order fetch of the
detail path is unguarded — only an empty (falsy) body degrades, to a
not-found result. -/
theorem store_reads_degrade (stf : Option String) (wsf : Option Bool) (limit offset : Nat)
    (rl r : StoreResp Order) (r2 : StoreResp WhatsAppLog) :
    (rl.status ≠ 200 → get_orders stf wsf limit offset rl = .arr []) ∧
    (r.body = .arr [] → get_order_by_id r r2 = .ok none) ∧
    (∀ o rest, r.body = .arr (o :: rest) → r2.status ≠ 200 →
      get_order_by_id r r2 = .ok (some (o, .arr []))) := by
  refine ⟨fun h => ?_, fun h => ?_, fun o rest h h2 => ?_⟩
  · unfold get_orders
    rw [if_neg (by simpa using h)]
  · unfold get_order_by_id
    rw [h]
    rfl
  · unfold get_order_by_id
    rw [h]
    simp [StoreBody.truthy, StoreBody.index0, h2]

/-- Claim C8 witness. -/
theorem store_reads_degrade_witness :
    get_orders none none 50 0 { status := 503, body := .errObj "down" } = .arr [] ∧
    get_order_by_id { status := 200, body := .arr [] } errLogResp = .ok none ∧
    get_order_by_id { status := 200, body := .arr [orderWithPhone] } errLogResp =
      .ok (some (orderWithPhone, .arr [])) := by
  refine ⟨?_, ?_, ?_⟩
  · exact (store_reads_degrade none none 50 0 { status := 503, body := .errObj "down" }
      { status := 200, body := .arr [] } errLogResp).1 (by decide)
  · exact (store_reads_degrade none none 50 0 { status := 503, body := .errObj "down" }
      { status := 200, body := .arr [] } errLogResp).2.1 rfl
  · exact (store_reads_degrade none none 50 0 { status := 503, body := .errObj "down" }
      { status := 200, body := .arr [orderWithPhone] } errLogResp).2.2 orderWithPhone []
      rfl (by decide)

/-- The function `upsert_customer` only touches the customers collection and the id
counter: orders, logs and clock are untouched. -/
theorem upsert_customer_frame (db : DB) (name : String) (email phone : Option String) :
    (upsert_customer db name email phone).2.orders = db.orders ∧
    (upsert_customer db name email phone).2.whatsapp_logs = db.whatsapp_logs ∧
    (upsert_customer db name email phone).2.now = db.now := by
  unfold upsert_customer insertCustomer
  split
  · split <;> exact ⟨rfl, rfl, rfl⟩
  · exact ⟨rfl, rfl, rfl⟩

/-- The duplicate branch of `upsert_order`. -/
theorem upsert_order_dup (db : DB) (od : OrderData) (x : Order)
    (h : db.orders.find? (fun o => o.shopify_order_id == od.shopify_order_id) = some x) :
    upsert_order db od = ((x, false), db) := by
  unfold upsert_order
  rw [h]

/-- The insert branch of `upsert_order`. -/
theorem upsert_order_new (db : DB) (od : OrderData)
    (h : db.orders.find? (fun o => o.shopify_order_id == od.shopify_order_id) = none) :
    upsert_order db od =
      ((insertedOrder db od, true),
        { db with orders := db.orders ++ [insertedOrder db od], nextId := db.nextId + 1 }) := by
  unfold upsert_order
  rw [h]

/-- Freshly assigned order ids are truthy (nonempty). -/
theorem freshOrderId_bne_empty (db : DB) : (freshOrderId db != "") = true := by
  have hne : freshOrderId db ≠ "" := by
    intro hcon
    have h1 : (freshOrderId db).data = "ord-".data ++ (toString db.nextId).data :=
      String.data_append _ _
    rw [hcon] at h1
    exact absurd h1.symm (by simp)
  simpa using hne

/-- Claim C1: ingesting a payload whose external order id already has a
stored row terminates right after the order upsert: the response is a success
with notification-sent false and the already-existed message, no order row is
inserted (the orders collection is unchanged), the notification client is
never invoked (zero provider calls), and no log row is written. -/
theorem ingest_duplicate_short_circuit (cfg : WhatsAppConfig) (provider : ProviderOutcome)
    (db : DB) (payload : ShopifyOrderPayload) (o : Order) (ho : o ∈ db.orders)
    (hid : o.shopify_order_id = payload.shopify_order_id) :
    (receive_shopify_order cfg provider db payload).1.success = true ∧
    (receive_shopify_order cfg provider db payload).1.whatsapp_sent = false ∧
    (receive_shopify_order cfg provider db payload).1.message =
      some "Pedido ya existente, sin cambios" ∧
    (receive_shopify_order cfg provider db payload).2.1.orders = db.orders ∧
    (receive_shopify_order cfg provider db payload).2.1.whatsapp_logs = db.whatsapp_logs ∧
    (receive_shopify_order cfg provider db payload).2.2 = 0 := by
  have hfr := upsert_customer_frame db (derive_customer_name payload.customer)
    (payload.customer.bind (fun c => c.email)) (derive_customer_phone payload)
  have hsome : ((upsert_customer db (derive_customer_name payload.customer)
      (payload.customer.bind (fun c => c.email)) (derive_customer_phone payload)).2.orders.find?
        (fun x => x.shopify_order_id ==
          (ingest_order_data payload
            (some (upsert_customer db (derive_customer_name payload.customer)
              (payload.customer.bind (fun c => c.email))
              (derive_customer_phone payload)).1.id)).shopify_order_id)).isSome := by
    rw [hfr.1]
    exact List.find?_isSome.mpr ⟨o, ho, by simp [ingest_order_data, hid]⟩
  obtain ⟨x, hx⟩ := Option.isSome_iff_exists.mp hsome
  have hup := upsert_order_dup _ _ x hx
  simp only [receive_shopify_order, hup]
  simp [hfr.1, hfr.2.1]

/-- Claim C1 witness. -/
theorem ingest_duplicate_short_circuit_witness :
    (receive_shopify_order cfgOK (.ok (some "wamid.X")) dbTwo payDup).1.success = true ∧
    (receive_shopify_order cfgOK (.ok (some "wamid.X")) dbTwo payDup).1.whatsapp_sent = false ∧
    (receive_shopify_order cfgOK (.ok (some "wamid.X")) dbTwo payDup).1.message =
      some "Pedido ya existente, sin cambios" ∧
    (receive_shopify_order cfgOK (.ok (some "wamid.X")) dbTwo payDup).2.1.orders =
      dbTwo.orders ∧
    (receive_shopify_order cfgOK (.ok (some "wamid.X")) dbTwo payDup).2.1.whatsapp_logs =
      dbTwo.whatsapp_logs ∧
    (receive_shopify_order cfgOK (.ok (some "wamid.X")) dbTwo payDup).2.2 = 0 := by
  exact ingest_duplicate_short_circuit cfgOK (.ok (some "wamid.X")) dbTwo payDup
    orderWithPhone (by decide) (by decide)

/-- The log write of `mark_whatsapp_sent`, in isolation. -/
theorem mark_whatsapp_sent_logs (db : DB) (order_id : String) (success : Bool)
    (mid err : Option String) :
    (mark_whatsapp_sent db order_id success mid err).whatsapp_logs =
      db.whatsapp_logs ++ [⟨order_id, success, mid, err, db.now⟩] := rfl

/-- Claim C3: ingesting a new order with no resolvable phone never invokes
the provider (zero network calls), synthesizes the failed
`"Sin teléfono"` outcome, and records it through `mark_whatsapp_sent`: exactly
one failed log row with the no-phone reason is appended for the new order. -/
theorem ingest_no_phone_logged (cfg : WhatsAppConfig) (provider : ProviderOutcome)
    (db : DB) (payload : ShopifyOrderPayload)
    (hnew : db.orders.find? (fun o => o.shopify_order_id == payload.shopify_order_id) = none)
    (hph : truthyStr (derive_customer_phone payload) = false) :
    (receive_shopify_order cfg provider db payload).2.2 = 0 ∧
    (receive_shopify_order cfg provider db payload).1.whatsapp_sent = false ∧
    (receive_shopify_order cfg provider db payload).1.whatsapp_error = some "Sin teléfono" ∧
    ∃ oid, (receive_shopify_order cfg provider db payload).2.1.whatsapp_logs =
      db.whatsapp_logs ++ [⟨oid, false, none, some "Sin teléfono", db.now⟩] := by
  have hfr := upsert_customer_frame db (derive_customer_name payload.customer)
    (payload.customer.bind (fun c => c.email)) (derive_customer_phone payload)
  have hnone1 : ((upsert_customer db (derive_customer_name payload.customer)
      (payload.customer.bind (fun c => c.email)) (derive_customer_phone payload)).2.orders.find?
        (fun x => x.shopify_order_id ==
          (ingest_order_data payload
            (some (upsert_customer db (derive_customer_name payload.customer)
              (payload.customer.bind (fun c => c.email))
              (derive_customer_phone payload)).1.id)).shopify_order_id)) = none := by
    rw [hfr.1]
    exact hnew
  have hup := upsert_order_new _ _ hnone1
  refine ⟨?_, ?_, ?_,
    freshOrderId (upsert_customer db (derive_customer_name payload.customer)
      (payload.customer.bind (fun c => c.email)) (derive_customer_phone payload)).2, ?_⟩ <;>
    simp [receive_shopify_order, hup, hph, insertedOrder, freshOrderId_bne_empty,
      mark_whatsapp_sent, hfr.2.1, hfr.2.2]

/-- Claim C3 witness. -/
theorem ingest_no_phone_logged_witness :
    (receive_shopify_order cfgOK (.ok (some "wamid.X")) dbTwo payNoPhone).2.2 = 0 ∧
    (receive_shopify_order cfgOK (.ok (some "wamid.X")) dbTwo payNoPhone).1.whatsapp_sent
      = false ∧
    (receive_shopify_order cfgOK (.ok (some "wamid.X")) dbTwo payNoPhone).1.whatsapp_error
      = some "Sin teléfono" ∧
    ∃ oid,
      (receive_shopify_order cfgOK (.ok (some "wamid.X")) dbTwo payNoPhone).2.1.whatsapp_logs
        = dbTwo.whatsapp_logs ++ [⟨oid, false, none, some "Sin teléfono", dbTwo.now⟩] := by
  exact ingest_no_phone_logged cfgOK (.ok (some "wamid.X")) dbTwo payNoPhone
    (by decide) (by decide)

/-- Claim C2, counterexample: the claim asserts every resend on an existing
order with a phone on file performs a provider call; with unconfigured
credentials the notification client short-circuits, so zero outbound calls
happen — yet one log row is still appended and the handler returns 502. -/
theorem resend_whatsapp_c2_counterexample :
    dbTwo.orders.find? (fun o => o.id == "ord-1") = some orderWithPhone ∧
    truthyStr orderWithPhone.customer_phone = true ∧
    (resend_whatsapp cfgNoToken (.ok none) dbTwo "ord-1").2.2 = 0 ∧
    (resend_whatsapp cfgNoToken (.ok none) dbTwo "ord-1").2.1.whatsapp_logs.length =
      dbTwo.whatsapp_logs.length + 1 ∧
    (resend_whatsapp cfgNoToken (.ok none) dbTwo "ord-1").1 =
      .err 502 ("Error al enviar WhatsApp: " ++ configErrorMsg) := by
  refine ⟨by decide, by decide, by decide, by decide, by decide⟩

/-- Claim C2 (amended): a manual resend on an existing order with a phone on
file invokes the notification client unconditionally (ignoring any prior
notification-sent state) and appends exactly one log row win or lose; the
client performs exactly one provider network call unless credentials are
missing or the normalized phone is shorter than 10 digits (then zero); an
unknown id yields 404, a missing phone 400, and any failed send a 502 with the
send error. -/
theorem resend_whatsapp_spec (cfg : WhatsAppConfig) (provider : ProviderOutcome) (db : DB)
    (order_id : String) :
    (db.orders.find? (fun o => o.id == order_id) = none →
      resend_whatsapp cfg provider db order_id = (.err 404 "Pedido no encontrado", db, 0)) ∧
    (∀ o, db.orders.find? (fun o => o.id == order_id) = some o →
      truthyStr o.customer_phone = false →
      resend_whatsapp cfg provider db order_id =
        (.err 400 "Este pedido no tiene teléfono registrado", db, 0)) ∧
    (∀ o, db.orders.find? (fun o => o.id == order_id) = some o →
      truthyStr o.customer_phone = true →
      (resend_whatsapp cfg provider db order_id).2.1.whatsapp_logs =
        db.whatsapp_logs ++
          [⟨order_id,
            (send_order_confirmation cfg provider (orEmpty o.customer_phone) o.customer_name
              o.order_number o.total_price o.currency).1.success,
            (send_order_confirmation cfg provider (orEmpty o.customer_phone) o.customer_name
              o.order_number o.total_price o.currency).1.message_id,
            (send_order_confirmation cfg provider (orEmpty o.customer_phone) o.customer_name
              o.order_number o.total_price o.currency).1.error, db.now⟩] ∧
      (resend_whatsapp cfg provider db order_id).2.2 =
        (send_order_confirmation cfg provider (orEmpty o.customer_phone) o.customer_name
          o.order_number o.total_price o.currency).2 ∧
      (cfg.phone_number_id ≠ "" → cfg.access_token ≠ "" →
        10 ≤ (normalize_phone (orEmpty o.customer_phone)).length →
        (resend_whatsapp cfg provider db order_id).2.2 = 1) ∧
      ((send_order_confirmation cfg provider (orEmpty o.customer_phone) o.customer_name
          o.order_number o.total_price o.currency).1.success = false →
        (resend_whatsapp cfg provider db order_id).1 =
          .err 502 ("Error al enviar WhatsApp: " ++
            orEmpty (send_order_confirmation cfg provider (orEmpty o.customer_phone)
              o.customer_name o.order_number o.total_price o.currency).1.error))) := by
  refine ⟨fun h => ?_, fun o hf hp => ?_, fun o hf hp => ?_⟩
  · unfold resend_whatsapp
    rw [h]
  · unfold resend_whatsapp
    rw [hf]
    simp [hp]
  · have hcalls : (resend_whatsapp cfg provider db order_id).2.2 =
        (send_order_confirmation cfg provider (orEmpty o.customer_phone) o.customer_name
          o.order_number o.total_price o.currency).2 := by
      unfold resend_whatsapp
      rw [hf]
      cases hsucc : (send_order_confirmation cfg provider (orEmpty o.customer_phone)
          o.customer_name o.order_number o.total_price o.currency).1.success <;>
        simp [hp, hsucc]
    refine ⟨?_, hcalls, fun hpn htk hlen => ?_, fun hsucc => ?_⟩
    · unfold resend_whatsapp
      rw [hf]
      cases hsucc : (send_order_confirmation cfg provider (orEmpty o.customer_phone)
          o.customer_name o.order_number o.total_price o.currency).1.success <;>
        simp [hp, hsucc, mark_whatsapp_sent_logs]
    · rw [hcalls]
      have hc := send_order_confirmation_cases cfg provider (orEmpty o.customer_phone)
        o.customer_name o.order_number o.total_price o.currency
      rw [if_neg (by simp [hpn, htk]), if_neg (by omega)] at hc
      exact hc
    · unfold resend_whatsapp
      rw [hf]
      simp [hp, hsucc]

/-- Claim C2 witness. -/
theorem resend_whatsapp_spec_witness :
    resend_whatsapp cfgOK (.ok (some "wamid.X")) dbTwo "ord-404" =
      (.err 404 "Pedido no encontrado", dbTwo, 0) ∧
    resend_whatsapp cfgOK (.ok (some "wamid.X")) dbTwo "ord-2" =
      (.err 400 "Este pedido no tiene teléfono registrado", dbTwo, 0) ∧
    (resend_whatsapp cfgOK (.ok (some "wamid.X")) dbTwo "ord-1").2.1.whatsapp_logs =
      dbTwo.whatsapp_logs ++
        [⟨"ord-1",
          (send_order_confirmation cfgOK (.ok (some "wamid.X"))
            (orEmpty orderWithPhone.customer_phone) orderWithPhone.customer_name
            orderWithPhone.order_number orderWithPhone.total_price
            orderWithPhone.currency).1.success,
          (send_order_confirmation cfgOK (.ok (some "wamid.X"))
            (orEmpty orderWithPhone.customer_phone) orderWithPhone.customer_name
            orderWithPhone.order_number orderWithPhone.total_price
            orderWithPhone.currency).1.message_id,
          (send_order_confirmation cfgOK (.ok (some "wamid.X"))
            (orEmpty orderWithPhone.customer_phone) orderWithPhone.customer_name
            orderWithPhone.order_number orderWithPhone.total_price
            orderWithPhone.currency).1.error, dbTwo.now⟩] ∧
    (resend_whatsapp cfgOK (.ok (some "wamid.X")) dbTwo "ord-1").2.2 = 1 := by
  have h := resend_whatsapp_spec cfgOK (.ok (some "wamid.X")) dbTwo "ord-404"
  have h1 := resend_whatsapp_spec cfgOK (.ok (some "wamid.X")) dbTwo "ord-2"
  have h2 := resend_whatsapp_spec cfgOK (.ok (some "wamid.X")) dbTwo "ord-1"
  refine ⟨h.1 (by decide), h1.2.1 orderNoPhone (by decide) (by decide), ?_, ?_⟩
  · exact (h2.2.2 orderWithPhone (by decide) (by decide)).1
  · exact (h2.2.2 orderWithPhone (by decide) (by decide)).2.2.1
      (by decide) (by decide) (by decide)

end COPAS
